import Mathlib

/-!
Verification of `src/packages/@tinacms/toolkit/src/packages/react-sidebar/components/SidebarBody.tsx`.

The file is a React view component. We give a shallow embedding of its pure
decision logic: the render selection of `FormsView`, the `setSingleActiveForm`
state update, the `MultiformFormHeader` close-click handler, the header render
contents, and the styled-component CSS of `FormWrapper`.
-/

/-- The slice of a final-form state read by this file: `finalForm.getState().invalid`. -/
structure FinalFormState where
  invalid : Bool
deriving DecidableEq, Repr

/-- The `finalForm` handle of a form; `getState()` returns its current state. -/
structure FinalForm where
  state : FinalFormState
deriving DecidableEq, Repr

def FinalForm.getState (f : FinalForm) : FinalFormState := f.state

/-- A form plugin as consumed by SidebarBody.tsx: `id`, `label`, `finalForm`.
JS truthiness of `activeForm.label` is modelled by `label ≠ ""` (an absent
label is modelled as the empty string, which is falsy in JS, like `undefined`). -/
structure Form where
  id : String
  label : String
  finalForm : FinalForm
deriving DecidableEq, Repr

/-- A form meta plugin: `cms.plugins.all<FormMetaPlugin>('form:meta')` yields these;
each contributes one rendered `meta.Component`, identified here by its `name`. -/
structure FormMetaPlugin where
  name : String
deriving DecidableEq, Repr

/-- Modelled from the spec: the forms registry (`cms.plugins.getType<Form>('form')`)
is an external collaborator "exposing enumerate/find-by-id"; its code is not part
of this file. `all` enumerates the registered forms in registration order. -/
structure FormPlugins where
  forms : List Form
deriving DecidableEq, Repr

/-- Modelled from the spec: `formPlugins.all()` enumerates the registered forms. -/
def FormPlugins.all (p : FormPlugins) : List Form := p.forms

/-- Modelled from the spec: `formPlugins.find(id)` is find-by-id, returning
`undefined` (here `none`) when no registered form has the given id. -/
def FormPlugins.find (p : FormPlugins) (id : String) : Option Form :=
  p.forms.find? (fun f => f.id == id)

/-- Which header `FormsView` places above the editor, mirroring the JSX:
`isMultiform && <MultiformFormHeader/>`, `!isMultiform && activeForm.label && <FormHeader/>`. -/
inductive HeaderRender where
  | multiform (activeForm : Form)
  | single (activeForm : Form)
  | noHeader
deriving DecidableEq, Repr

/-- The content of the `FormWrapper` panel rendered in the active-form editor
state: the header, the meta plugin components (by plugin name, in the order
they are mapped over), and the form handed to `FormBuilder`. -/
structure EditorPanel where
  isEditing : Bool
  isMultiform : Bool
  header : HeaderRender
  metaComponents : List String
  builderForm : Form
deriving DecidableEq, Repr

/-- The three shapes `FormsView` can return: the bare `children` fragment,
`<FormList isEditing forms setActiveFormId/>` (the setter prop is the ambient
React state setter and is always passed), or the final fragment which holds
the editor panel exactly when `activeForm` is truthy. -/
inductive FormsViewRender where
  | childrenOnly
  | formList (isEditing : Bool) (forms : List Form)
  | fragment (panel : Option EditorPanel)
deriving DecidableEq, Repr

/-- True exactly when the render contains the `FormList` component. -/
def FormsViewRender.rendersFormList : FormsViewRender → Bool
  | .formList _ _ => true
  | _ => false

/-- True exactly when the render contains the `FormBuilder` editing surface. -/
def FormsViewRender.rendersFormBuilder : FormsViewRender → Bool
  | .fragment (some _) => true
  | _ => false

/-- The render function of `FormsView`, as a function of the registry contents,
the registered form meta plugins, and the local `activeFormId` state.
Mirrors lines 71-121 of SidebarBody.tsx. -/
def FormsView (formPlugins : FormPlugins) (formMetas : List FormMetaPlugin)
    (activeFormId : String) : FormsViewRender :=
  let forms := formPlugins.all
  let activeForm : Option Form := formPlugins.find activeFormId
  let isEditing : Bool := activeForm.isSome
  if forms.length = 0 then
    FormsViewRender.childrenOnly
  else if forms.length > 1 ∧ activeForm = none then
    FormsViewRender.formList isEditing forms
  else
    FormsViewRender.fragment (activeForm.map fun af =>
      { isEditing := isEditing
        isMultiform := forms.length > 1
        header :=
          if forms.length > 1 then HeaderRender.multiform af
          else if af.label ≠ "" then HeaderRender.single af
          else HeaderRender.noHeader
        metaComponents := formMetas.map FormMetaPlugin.name
        builderForm := af })

/-- The setSingleActiveForm update (lines 50-54): invoked on mount and on every
forms-registry subscription callback; it updates the local `activeFormId`
state only when the registry holds exactly one form. The result is the new
value of `activeFormId`. -/
def setSingleActiveForm (formPlugins : FormPlugins) (activeFormId : String) : String :=
  if formPlugins.all.length = 1 then
    match formPlugins.all[0]? with
    | some f => f.id
    | none => activeFormId
  else
    activeFormId

/-- Effect of one click on the multi-form header's close button (lines 204-212):
alerts dispatched through `cms.alerts.error`, and the resulting `activeFormId`. -/
structure ClickEffect where
  alerts : List String
  activeFormId : String
deriving DecidableEq, Repr

/-- The `onClick` handler of the close button in `MultiformFormHeader`. -/
def MultiformFormHeader.onClick (activeForm : Form) (activeFormId : String) : ClickEffect :=
  let state := activeForm.finalForm.getState
  if state.invalid = true then
    { alerts := ["Cannot navigate away from an invalid form."], activeFormId := activeFormId }
  else
    { alerts := [], activeFormId := "" }

/-- Visible pieces of content a header component renders. -/
inductive Element where
  | text (s : String)
  | closeIcon
  | formStatus (pristine : Bool)
deriving DecidableEq, Repr

def Element.isFormStatus : Element → Bool
  | .formStatus _ => true
  | _ => false

/-- What `MultiformFormHeader` renders (lines 193-221): the active form's
label and the `IoMdClose` icon inside the close button. -/
def MultiformFormHeader.render (activeForm : Form) : List Element :=
  [Element.text activeForm.label, Element.closeIcon]

/-- What `FormHeader` renders (lines 227-244): the active form's label and
`<FormStatus pristine={formIsPristine}/>`. -/
def FormHeader.render (activeForm : Form) (formIsPristine : Bool) : List Element :=
  [Element.text activeForm.label, Element.formStatus formIsPristine]

/-- A header displays a piece of text when that text occurs among its elements. -/
def displaysText (els : List Element) (s : String) : Prop := Element.text s ∈ els

/-- A header displays the pristine/dirty status when it contains a `FormStatus`. -/
def displaysStatus (els : List Element) : Bool := els.any Element.isFormStatus

/-- The `FormAnimationKeyframes` slide-in animation (lines 145-152). -/
def FormAnimationKeyframes : List (Nat × String) :=
  [(0, "translate3d( 100%, 0, 0 )"), (100, "translate3d( 0, 0, 0 )")]

/-- The CSS declarations `FormWrapper` (lines 159-186) emits for its direct
children (`> *`), in source order: the base off-screen transform, then, only
when `isEditing`, the block that clears the transform and attaches the
keyframe animation. -/
def formWrapperChildDecls (isEditing : Bool) : List (String × String) :=
  [("transform", "translate3d(100%, 0, 0)")] ++
    (if isEditing then
      [("transform", "none"),
       ("animation-name", "FormAnimationKeyframes"),
       ("animation-duration", "150ms"),
       ("animation-delay", "0"),
       ("animation-iteration-count", "1"),
       ("animation-timing-function", "ease-out")]
    else [])

/-- CSS cascade on declarations of equal specificity: the last one wins. -/
def effectiveChildDecl (decls : List (String × String)) (prop : String) : Option String :=
  (decls.reverse.find? fun d => d.fst == prop).map Prod.snd

/- Concrete forms and registries used by witnesses and counterexamples. -/

def formA : Form := { id := "form-a", label := "Form A", finalForm := { state := { invalid := false } } }

def formB : Form := { id := "form-b", label := "Form B", finalForm := { state := { invalid := false } } }

def formInvalid : Form := { id := "form-x", label := "Form X", finalForm := { state := { invalid := true } } }

def formEmptyId : Form := { id := "", label := "Anon", finalForm := { state := { invalid := false } } }

def regEmpty : FormPlugins := { forms := [] }

def regA : FormPlugins := { forms := [formA] }

def regAB : FormPlugins := { forms := [formA, formB] }

def regEmptyId : FormPlugins := { forms := [formEmptyId] }

/- Helper lemmas. -/

theorem find_eq_none_of_no_empty_id (p : FormPlugins) (h : ∀ f ∈ p.forms, f.id ≠ "") :
    p.find "" = none := by
  simp only [FormPlugins.find, List.find?_eq_none]
  intro f hf
  simpa using h f hf

/-- Claim C1: whenever the forms registry is empty, FormsView renders exactly
its children prop, regardless of the current activeFormId; in particular it
renders neither the form list nor any editing surface. -/
theorem forms_view_no_forms (p : FormPlugins) (metas : List FormMetaPlugin)
    (activeFormId : String) (h : p.all = []) :
    FormsView p metas activeFormId = FormsViewRender.childrenOnly ∧
    (FormsView p metas activeFormId).rendersFormList = false ∧
    (FormsView p metas activeFormId).rendersFormBuilder = false := by
  have hlen : p.all.length = 0 := by rw [h]; rfl
  refine ⟨?_, ?_, ?_⟩ <;> simp [FormsView, hlen, FormsViewRender.rendersFormList,
    FormsViewRender.rendersFormBuilder]

theorem forms_view_no_forms_witness :
    FormsView regEmpty [] "whatever" = FormsViewRender.childrenOnly :=
  (forms_view_no_forms regEmpty [] "whatever" rfl).1

/-- Claim C2: with more than one registered form and an activeFormId matching
no registered form, FormsView renders the FormList component with the full
list of forms (and isEditing false; the setActiveFormId state setter is the
remaining prop of the formList render). -/
theorem forms_view_multiform_no_active (p : FormPlugins) (metas : List FormMetaPlugin)
    (activeFormId : String) (h1 : p.all.length > 1) (h2 : p.find activeFormId = none) :
    FormsView p metas activeFormId = FormsViewRender.formList false p.all := by
  have hne : ¬ p.all.length = 0 := by omega
  simp [FormsView, hne, h1, h2]

theorem forms_view_multiform_no_active_witness :
    FormsView regAB [] "no-such-id" = FormsViewRender.formList false regAB.all :=
  forms_view_multiform_no_active regAB [] "no-such-id" (by decide) (by decide)

/-- Claim C3: on mount and on every forms-registry subscription callback,
setSingleActiveForm is invoked; when the registry contains exactly one form it
sets the local active form id to that form's id. -/
theorem set_single_active_form_selects (p : FormPlugins) (activeFormId : String)
    (f : Form) (h : p.all = [f]) :
    setSingleActiveForm p activeFormId = f.id := by
  simp [setSingleActiveForm, h]

theorem set_single_active_form_selects_witness :
    setSingleActiveForm regA "" = formA.id :=
  set_single_active_form_selects regA "" formA rfl

/-- Claim C9: setSingleActiveForm is a no-op on the local active form id
whenever the registry size is not exactly 1 (zero forms, or two or more). -/
theorem set_single_active_form_frame (p : FormPlugins) (activeFormId : String)
    (h : p.all.length ≠ 1) :
    setSingleActiveForm p activeFormId = activeFormId := by
  simp [setSingleActiveForm, h]

theorem set_single_active_form_frame_witness :
    setSingleActiveForm regEmpty "keep" = "keep" ∧
    setSingleActiveForm regAB "keep" = "keep" :=
  ⟨set_single_active_form_frame regEmpty "keep" (by decide),
   set_single_active_form_frame regAB "keep" (by decide)⟩

/-- Claim C4: clicking the multi-form header's close affordance dispatches the
error alert and leaves the active form id unchanged when the active form's
finalForm state is invalid, and otherwise sets the active form id to the empty
string, returning to the list. -/
theorem multiform_header_close_click (activeForm : Form) (activeFormId : String) :
    (activeForm.finalForm.getState.invalid = true →
      MultiformFormHeader.onClick activeForm activeFormId =
        { alerts := ["Cannot navigate away from an invalid form."],
          activeFormId := activeFormId }) ∧
    (activeForm.finalForm.getState.invalid = false →
      MultiformFormHeader.onClick activeForm activeFormId =
        { alerts := [], activeFormId := "" }) := by
  constructor <;> intro h <;> simp [MultiformFormHeader.onClick, h]

theorem multiform_header_close_click_witness :
    MultiformFormHeader.onClick formInvalid "form-x" =
      { alerts := ["Cannot navigate away from an invalid form."], activeFormId := "form-x" } ∧
    MultiformFormHeader.onClick formA "form-a" = { alerts := [], activeFormId := "" } :=
  ⟨(multiform_header_close_click formInvalid "form-x").1 rfl,
   (multiform_header_close_click formA "form-a").2 rfl⟩

/-- Counterexample to claim C5 as stated: the multi-form header renders no
FormStatus element at all, so it does not display the pristine/dirty status
(shown here on a concrete form), while the single-form header does. -/
theorem multiform_header_no_status_cex :
    displaysStatus (MultiformFormHeader.render formA) = false ∧
    displaysStatus (FormHeader.render formA true) = true := by
  decide

/-- Claim C5 (amended): both headers display the active form's label; the
single-form header FormHeader additionally displays the pristine/dirty status,
while the multi-form header MultiformFormHeader displays a close affordance
instead of the status. -/
theorem headers_display_label_and_status (activeForm : Form) (formIsPristine : Bool) :
    displaysText (MultiformFormHeader.render activeForm) activeForm.label ∧
    displaysText (FormHeader.render activeForm formIsPristine) activeForm.label ∧
    displaysStatus (FormHeader.render activeForm formIsPristine) = true ∧
    displaysStatus (MultiformFormHeader.render activeForm) = false ∧
    Element.closeIcon ∈ MultiformFormHeader.render activeForm := by
  refine ⟨?_, ?_, rfl, rfl, ?_⟩ <;>
    simp [displaysText, MultiformFormHeader.render, FormHeader.render]

/-- Counterexample to claim C6 as stated: with a non-empty registry holding
exactly one form (id "form-a") and activeFormId equal to the empty string,
FormsView renders an empty fragment, not the form list; and with a single
registered form whose id is itself the empty string, FormsView renders the
FormBuilder editing surface even though activeFormId is the empty string. -/
theorem forms_view_empty_id_cex :
    regA.all ≠ [] ∧
    (FormsView regA [] "").rendersFormList = false ∧
    regEmptyId.all ≠ [] ∧
    (FormsView regEmptyId [] "").rendersFormBuilder = true := by
  decide

/-- Claim C6 (amended): for every registry state with more than one form, none
of which has the empty string as its id, when the active form id is the empty
string FormsView renders the form list and does not render the active-form
editing surface (FormBuilder). -/
theorem forms_view_empty_id_shows_list (p : FormPlugins) (metas : List FormMetaPlugin)
    (h1 : p.all.length > 1) (h2 : ∀ f ∈ p.forms, f.id ≠ "") :
    FormsView p metas "" = FormsViewRender.formList false p.all ∧
    (FormsView p metas "").rendersFormBuilder = false := by
  have hfind : p.find "" = none := find_eq_none_of_no_empty_id p h2
  have hne : ¬ p.all.length = 0 := by omega
  refine ⟨?_, ?_⟩ <;>
    simp [FormsView, hne, h1, hfind, FormsViewRender.rendersFormBuilder]

theorem forms_view_empty_id_shows_list_witness :
    FormsView regAB [] "" = FormsViewRender.formList false regAB.all :=
  (forms_view_empty_id_shows_list regAB [] (by decide) (by decide)).1

/-- The editor panel produced by FormsView on the singleton registry regA with
two meta plugins, used to witness the meta-plugin ordering theorem. -/
def panelA : EditorPanel :=
  { isEditing := true
    isMultiform := false
    header := HeaderRender.single formA
    metaComponents := ["meta-1", "meta-2"]
    builderForm := formA }

/-- Claim C7: in the active-form editor state, the form meta plugins'
components are rendered one per registered form-meta plugin, in exactly the
order the plugin registry returns them, with no plugin skipped or duplicated
(the rendered list is the name-image of the registry list). -/
theorem meta_plugins_rendered_in_order (p : FormPlugins) (metas : List FormMetaPlugin)
    (activeFormId : String) (panel : EditorPanel)
    (h : FormsView p metas activeFormId = FormsViewRender.fragment (some panel)) :
    panel.metaComponents = metas.map FormMetaPlugin.name ∧
    panel.metaComponents.length = metas.length := by
  simp only [FormsView] at h
  split at h
  · exact absurd h (by simp)
  · split at h
    · exact absurd h (by simp)
    · cases hf : p.find activeFormId with
      | none =>
          rw [hf] at h
          exact absurd h (by simp)
      | some af =>
          rw [hf, Option.map_some'] at h
          injection h with h1
          injection h1 with h2
          rw [← h2]
          exact ⟨rfl, by simp⟩

theorem meta_plugins_rendered_in_order_witness :
    panelA.metaComponents = [FormMetaPlugin.mk "meta-1", FormMetaPlugin.mk "meta-2"].map
      FormMetaPlugin.name :=
  (meta_plugins_rendered_in_order regA [FormMetaPlugin.mk "meta-1", FormMetaPlugin.mk "meta-2"]
    "form-a" panelA (by decide)).1

/-- Claim C8: the FormWrapper panel attaches the slide-in keyframe animation to
its children if and only if its isEditing prop is true; when isEditing is false
the children keep the off-screen transform translate3d(100%, 0, 0) and no
animation is attached, and when it is true the transform is cleared. -/
theorem form_wrapper_animation_iff (isEditing : Bool) :
    (effectiveChildDecl (formWrapperChildDecls isEditing) "animation-name"
        = some "FormAnimationKeyframes" ↔ isEditing = true) ∧
    effectiveChildDecl (formWrapperChildDecls false) "transform"
        = some "translate3d(100%, 0, 0)" ∧
    effectiveChildDecl (formWrapperChildDecls false) "animation-name" = none ∧
    effectiveChildDecl (formWrapperChildDecls true) "transform" = some "none" := by
  cases isEditing <;> decide

theorem form_wrapper_animation_iff_witness :
    effectiveChildDecl (formWrapperChildDecls true) "animation-name"
      = some "FormAnimationKeyframes" :=
  (form_wrapper_animation_iff true).1.mpr rfl

/-- Claim C10: the FormBuilder editing surface is rendered only when
formPlugins.find(activeFormId) returns a form: whenever activeFormId matches no
registered form the editor is not shown, and in particular with exactly one
registered form whose id differs from activeFormId, FormsView renders an empty
fragment (neither the list, nor a header, nor the editor). -/
theorem editor_only_when_found (p : FormPlugins) (metas : List FormMetaPlugin)
    (activeFormId : String) (h : p.find activeFormId = none) :
    (FormsView p metas activeFormId).rendersFormBuilder = false ∧
    (p.all.length = 1 →
      FormsView p metas activeFormId = FormsViewRender.fragment none) := by
  constructor
  · simp only [FormsView]
    split
    · rfl
    · split
      · rfl
      · simp [h, FormsViewRender.rendersFormBuilder]
  · intro h1
    have hne : ¬ p.all.length = 0 := by omega
    have hng : ¬ p.all.length > 1 := by omega
    simp [FormsView, hne, hng, h]

theorem editor_only_when_found_witness :
    (FormsView regA [] "form-b").rendersFormBuilder = false ∧
    FormsView regA [] "form-b" = FormsViewRender.fragment none :=
  ⟨(editor_only_when_found regA [] "form-b" (by decide)).1,
   (editor_only_when_found regA [] "form-b" (by decide)).2 rfl⟩
